import Mathlib

/-!
Verification of the availability and retry subsystem of the tender repository.

The definitions below are a shallow embedding of two TypeScript modules:

* src/packages/agent/src/availability-checker.ts  (classifier and hint parsing)
* src/packages/agent/src/llm-availability-machine.ts  (XState availability machine)

Numbers that the source stores in JavaScript number fields are modelled as
Nat or Int (all values involved are exact integers far below 2^53, so the
double arithmetic of the source is exact).  Environment services that the
source calls (Date.parse, Date.now) are passed in as explicit parameters.
The XState machine is modelled as a pure transition function on a state tag
together with the machine context; event delivery (probe resolution, delayed
events, external commands) is an explicit event list.
-/

namespace Tender

/-! ## availability-checker.ts -/

/-- Error codes for availability check failures, from availabilityErrorCodes
in availability-checker.ts. -/
inductive AvailabilityErrorCode
  | invalidKey
  | rateLimited
  | serviceDown
deriving DecidableEq, Repr

/-- Structured error from an availability check (interface AvailabilityError). -/
structure AvailabilityError where
  code : AvailabilityErrorCode
  statusCode : Option Int
  retryAfterMs : Option Nat
  message : String
deriving DecidableEq, Repr

/-- classifyResponse from availability-checker.ts: 401 and 403 map to
invalid-key, any other status with a Retry-After header maps to rate-limited,
everything else maps to service-down. -/
def classifyResponse (status : Int) (hasRetryAfter : Bool) : AvailabilityErrorCode :=
  if status = 401 ∨ status = 403 then
    AvailabilityErrorCode.invalidKey
  else if hasRetryAfter then
    AvailabilityErrorCode.rateLimited
  else
    AvailabilityErrorCode.serviceDown

/-- Whitespace characters skipped by the JavaScript parseInt before reading
digits (the common ASCII subset, which covers every input considered here). -/
def jsWhitespace (c : Char) : Bool :=
  c = ' ' ∨ c = '\t' ∨ c = '\n' ∨ c = '\r'

/-- Longest prefix of decimal digits of a character list. -/
def digitsPrefix : List Char → List Char
  | [] => []
  | c :: cs => if c.isDigit then c :: digitsPrefix cs else []

/-- Numeric value of a list of decimal digits, most significant first. -/
def digitsToNat (ds : List Char) : Nat :=
  ds.foldl (fun acc c => 10 * acc + (c.toNat - 48)) 0

/-- Reading of an integer with the given sign from a character list: the
longest digit prefix is taken, and the absence of any digit yields none
(the NaN result of parseInt). -/
def jsParseIntFrom (sign : Int) (cs : List Char) : Option Int :=
  let ds := digitsPrefix cs
  if ds.isEmpty then none else some (sign * (digitsToNat ds : Int))

/-- Model of the JavaScript parseInt(value, 10) used by parseRetryAfter:
leading whitespace is skipped, an optional sign is read, and the longest
prefix of decimal digits gives the value; trailing garbage is ignored, and
none models NaN. -/
def jsParseInt (s : String) : Option Int :=
  match s.toList.dropWhile jsWhitespace with
  | '-' :: rest => jsParseIntFrom (-1) rest
  | '+' :: rest => jsParseIntFrom 1 rest
  | cs => jsParseIntFrom 1 cs

/-- The HTTP-date branch of parseRetryAfter: Date.parse is the environment
date parser (none models NaN), and a computed delay that is not strictly
positive is treated as absent. -/
def parseRetryAfterDate (dateParse : String → Option Int) (now : Int)
    (v : String) : Option Int :=
  match dateParse v with
  | some date => if date - now > 0 then some (date - now) else none
  | none => none

/-- parseRetryAfter from availability-checker.ts.  The source consults the
environment through Date.parse and Date.now; these are the dateParse and now
parameters.  A missing or empty header is falsy in the source and yields
undefined; a parseInt result that is a non-negative number is taken as whole
seconds and converted to milliseconds; otherwise the value is tried as an
HTTP-date. -/
def parseRetryAfter (dateParse : String → Option Int) (now : Int)
    (value : Option String) : Option Int :=
  match value with
  | none => none
  | some v =>
    if v = "" then none
    else
      match jsParseInt v with
      | some seconds =>
          if 0 ≤ seconds then some (seconds * 1000)
          else parseRetryAfterDate dateParse now v
      | none => parseRetryAfterDate dateParse now v

/-- isAvailabilityError from availability-checker.ts is a runtime shape
check; an error that is already a structured AvailabilityError value always
passes it. -/
def isAvailabilityError (_e : AvailabilityError) : Bool := true

/-! ## llm-availability-machine.ts -/

/-- LlmProvider from the config package: the literal union of none and
anthropic.  The value none disables LLM features. -/
inductive LlmProvider
  | none
  | anthropic
deriving DecidableEq, Repr

/-- Context of the availability machine (interface LlmAvailabilityContext). -/
structure LlmAvailabilityContext where
  provider : LlmProvider
  apiKey : Option String
  retryCount : Nat
  retryAfterMs : Option Nat
  currentBackoffMs : Nat
  maxRetries : Nat
  baseBackoffMs : Nat
  maxBackoffMs : Nat
  rateLimitDefaultMs : Nat
  lastErrorMessage : Option String
  lastErrorCode : Option Int
deriving DecidableEq, Repr

/-- State values of the machine (llmAvailabilityStates). -/
inductive LlmAvailabilityState
  | initializing
  | disabled
  | checking
  | available
  | keyMissing
  | invalidKey
  | rateLimited
  | serviceDown
deriving DecidableEq, Repr

/-- Events delivered to the machine.  CHECK and CONFIGURE are the two
external commands of LlmAvailabilityEvent; PROBE_DONE and PROBE_ERROR model
the resolution of the invoked checkAvailability actor; TIMER_ELAPSE models
the firing of the delayed transition pending in the current state. -/
inductive LlmAvailabilityEvent
  | CHECK
  | CONFIGURE (provider : LlmProvider) (apiKey : Option String)
  | PROBE_DONE
  | PROBE_ERROR (error : AvailabilityError)
  | TIMER_ELAPSE
deriving DecidableEq, Repr

/-- Input for creating the machine (interface LlmAvailabilityInput); the
four numeric fields are optional. -/
structure LlmAvailabilityInput where
  provider : LlmProvider
  apiKey : Option String
  maxRetries : Option Nat
  baseBackoffMs : Option Nat
  maxBackoffMs : Option Nat
  rateLimitDefaultMs : Option Nat
deriving DecidableEq, Repr

/-- Default configuration values (DEFAULTS). -/
def DEFAULTS_maxRetries : Nat := 5

/-- Default base backoff in milliseconds (DEFAULTS). -/
def DEFAULTS_baseBackoffMs : Nat := 10000

/-- Default maximum backoff in milliseconds (DEFAULTS). -/
def DEFAULTS_maxBackoffMs : Nat := 600000

/-- Default rate limit delay in milliseconds (DEFAULTS). -/
def DEFAULTS_rateLimitDefaultMs : Nat := 60000

/-- createInitialContext from llm-availability-machine.ts. -/
def createInitialContext (input : LlmAvailabilityInput) : LlmAvailabilityContext :=
  { provider := input.provider
    apiKey := input.apiKey
    retryCount := 0
    retryAfterMs := none
    currentBackoffMs := input.baseBackoffMs.getD DEFAULTS_baseBackoffMs
    maxRetries := input.maxRetries.getD DEFAULTS_maxRetries
    baseBackoffMs := input.baseBackoffMs.getD DEFAULTS_baseBackoffMs
    maxBackoffMs := input.maxBackoffMs.getD DEFAULTS_maxBackoffMs
    rateLimitDefaultMs := input.rateLimitDefaultMs.getD DEFAULTS_rateLimitDefaultMs
    lastErrorMessage := none
    lastErrorCode := none }

/-- Guard isDisabled: context.provider === 'none'. -/
def isDisabled (c : LlmAvailabilityContext) : Bool :=
  decide (c.provider = LlmProvider.none)

/-- Guard hasNoKey: !context.apiKey, which is true for an absent key and for
the empty string (the only falsy string). -/
def hasNoKey (c : LlmAvailabilityContext) : Bool :=
  match c.apiKey with
  | none => true
  | some s => decide (s = "")

/-- Guard canRetry: context.retryCount < context.maxRetries. -/
def canRetry (c : LlmAvailabilityContext) : Bool :=
  decide (c.retryCount < c.maxRetries)

/-- Guard isInvalidKeyError: a structured availability error whose code is
invalid-key. -/
def isInvalidKeyError (e : AvailabilityError) : Bool :=
  isAvailabilityError e && decide (e.code = AvailabilityErrorCode.invalidKey)

/-- Guard isRateLimitError: a structured availability error whose code is
rate-limited. -/
def isRateLimitError (e : AvailabilityError) : Bool :=
  isAvailabilityError e && decide (e.code = AvailabilityErrorCode.rateLimited)

/-- Action resetRetryState: zero the retry counter, restore the base
backoff, and clear the hint and the diagnostic fields. -/
def resetRetryState (c : LlmAvailabilityContext) : LlmAvailabilityContext :=
  { c with
    retryCount := 0
    currentBackoffMs := c.baseBackoffMs
    retryAfterMs := none
    lastErrorMessage := none
    lastErrorCode := none }

/-- Action incrementRetry. -/
def incrementRetry (c : LlmAvailabilityContext) : LlmAvailabilityContext :=
  { c with retryCount := c.retryCount + 1 }

/-- Action calculateBackoff: double the current backoff, capped at the
maximum (Math.min of the source, exact on Nat). -/
def calculateBackoff (c : LlmAvailabilityContext) : LlmAvailabilityContext :=
  { c with currentBackoffMs := min (c.currentBackoffMs * 2) c.maxBackoffMs }

/-- Action setRateLimitError: record the hint and the diagnostic fields. -/
def setRateLimitError (e : AvailabilityError) (c : LlmAvailabilityContext) :
    LlmAvailabilityContext :=
  { c with
    retryAfterMs := e.retryAfterMs
    lastErrorMessage := some e.message
    lastErrorCode := e.statusCode }

/-- Action setError: record the diagnostic fields. -/
def setError (e : AvailabilityError) (c : LlmAvailabilityContext) :
    LlmAvailabilityContext :=
  { c with
    lastErrorMessage := some e.message
    lastErrorCode := e.statusCode }

/-- Action updateConfig: replace provider and apiKey with the values carried
by the CONFIGURE event (an omitted apiKey overwrites with undefined). -/
def updateConfig (provider : LlmProvider) (apiKey : Option String)
    (c : LlmAvailabilityContext) : LlmAvailabilityContext :=
  { c with provider := provider, apiKey := apiKey }

/-- Delay RATE_LIMIT_DELAY: context.retryAfterMs ?? context.rateLimitDefaultMs. -/
def RATE_LIMIT_DELAY (c : LlmAvailabilityContext) : Nat :=
  c.retryAfterMs.getD c.rateLimitDefaultMs

/-- Delay BACKOFF_DELAY: context.currentBackoffMs. -/
def BACKOFF_DELAY (c : LlmAvailabilityContext) : Nat :=
  c.currentBackoffMs

/-- The always transitions of the transient initializing state: disabled
provider, then missing key, then checking, in that order. -/
def initRoute (c : LlmAvailabilityContext) : LlmAvailabilityState :=
  if isDisabled c then LlmAvailabilityState.disabled
  else if hasNoKey c then LlmAvailabilityState.keyMissing
  else LlmAvailabilityState.checking

/-- A CONFIGURE transition: updateConfig, target initializing, whose always
transitions resolve immediately. -/
def handleConfigure (provider : LlmProvider) (apiKey : Option String)
    (c : LlmAvailabilityContext) :
    LlmAvailabilityState × LlmAvailabilityContext :=
  let c2 := updateConfig provider apiKey c
  (initRoute c2, c2)

/-- One step of the machine: XState event processing for the statechart in
llm-availability-machine.ts.  Events with no matching transition in the
current state are discarded, exactly as XState discards them: in particular
the checking state declares no CHECK or CONFIGURE handler, and a guarded
delayed transition whose guard fails takes no transition and runs no action.
Transitions targeting initializing resolve its always transitions
immediately, so initializing is never a resting state; PROBE events can only
be delivered in checking, the only state whose invoked actor is live. -/
def step (s : LlmAvailabilityState) (c : LlmAvailabilityContext)
    (e : LlmAvailabilityEvent) :
    LlmAvailabilityState × LlmAvailabilityContext :=
  match s, e with
  | LlmAvailabilityState.initializing, _ => (initRoute c, c)
  | LlmAvailabilityState.disabled, LlmAvailabilityEvent.CONFIGURE p k =>
      handleConfigure p k c
  | LlmAvailabilityState.checking, LlmAvailabilityEvent.PROBE_DONE =>
      (LlmAvailabilityState.available, resetRetryState c)
  | LlmAvailabilityState.checking, LlmAvailabilityEvent.PROBE_ERROR err =>
      if isInvalidKeyError err then
        (LlmAvailabilityState.invalidKey, setError err c)
      else if isRateLimitError err then
        (LlmAvailabilityState.rateLimited, setRateLimitError err c)
      else
        (LlmAvailabilityState.serviceDown, incrementRetry (setError err c))
  | LlmAvailabilityState.available, LlmAvailabilityEvent.CHECK =>
      (LlmAvailabilityState.checking, c)
  | LlmAvailabilityState.available, LlmAvailabilityEvent.CONFIGURE p k =>
      handleConfigure p k c
  | LlmAvailabilityState.keyMissing, LlmAvailabilityEvent.CONFIGURE p k =>
      handleConfigure p k c
  | LlmAvailabilityState.invalidKey, LlmAvailabilityEvent.CHECK =>
      (LlmAvailabilityState.checking, c)
  | LlmAvailabilityState.invalidKey, LlmAvailabilityEvent.CONFIGURE p k =>
      handleConfigure p k c
  | LlmAvailabilityState.rateLimited, LlmAvailabilityEvent.TIMER_ELAPSE =>
      (LlmAvailabilityState.checking, c)
  | LlmAvailabilityState.rateLimited, LlmAvailabilityEvent.CHECK =>
      (LlmAvailabilityState.checking, c)
  | LlmAvailabilityState.rateLimited, LlmAvailabilityEvent.CONFIGURE p k =>
      handleConfigure p k c
  | LlmAvailabilityState.serviceDown, LlmAvailabilityEvent.TIMER_ELAPSE =>
      if canRetry c then
        (LlmAvailabilityState.checking, calculateBackoff c)
      else
        (LlmAvailabilityState.serviceDown, c)
  | LlmAvailabilityState.serviceDown, LlmAvailabilityEvent.CHECK =>
      (LlmAvailabilityState.checking, resetRetryState c)
  | LlmAvailabilityState.serviceDown, LlmAvailabilityEvent.CONFIGURE p k =>
      handleConfigure p k c
  | _, _ => (s, c)

/-- Run the machine over a list of delivered events. -/
def run (cfg : LlmAvailabilityState × LlmAvailabilityContext)
    (es : List LlmAvailabilityEvent) :
    LlmAvailabilityState × LlmAvailabilityContext :=
  es.foldl (fun p e => step p.1 p.2 e) cfg

/-- The machine configuration right after creation: the initial state is
initializing, whose always transitions resolve immediately on start. -/
def initialConfiguration (input : LlmAvailabilityInput) :
    LlmAvailabilityState × LlmAvailabilityContext :=
  (initRoute (createInitialContext input), createInitialContext input)

/-- A probe only runs while the invoked checkAvailability actor is live,
which is exactly the checking state. -/
def invokesProbe (s : LlmAvailabilityState) : Bool :=
  decide (s = LlmAvailabilityState.checking)

/-! ## Concrete fixtures used by the scenario conjuncts and witnesses -/

/-- A service-down probe failure, as built by createErrorFromResponse for a
500 response without a Retry-After header. -/
def downError : AvailabilityError :=
  { code := AvailabilityErrorCode.serviceDown
    statusCode := some 500
    retryAfterMs := none
    message := "Internal server error" }

/-- The input used by the unit tests of the machine. -/
def testInput : LlmAvailabilityInput :=
  { provider := LlmProvider.anthropic
    apiKey := some "test-key"
    maxRetries := some 3
    baseBackoffMs := some 100
    maxBackoffMs := some 1000
    rateLimitDefaultMs := some 100 }

/-- The backoff-cap scenario input: baseBackoffMs 100, maxBackoffMs 300. -/
def capInput : LlmAvailabilityInput :=
  { provider := LlmProvider.anthropic
    apiKey := some "k"
    maxRetries := some 10
    baseBackoffMs := some 100
    maxBackoffMs := some 300
    rateLimitDefaultMs := some 100 }

/-- An input whose base backoff exceeds its maximum backoff. -/
def bigBaseInput : LlmAvailabilityInput :=
  { provider := LlmProvider.anthropic
    apiKey := some "k"
    maxRetries := some 5
    baseBackoffMs := some 2000
    maxBackoffMs := some 1000
    rateLimitDefaultMs := some 1000 }

/-- An input with maxRetries 0. -/
def zeroRetryInput : LlmAvailabilityInput :=
  { provider := LlmProvider.anthropic
    apiKey := some "k"
    maxRetries := some 0
    baseBackoffMs := some 100
    maxBackoffMs := some 300
    rateLimitDefaultMs := some 100 }

/-- An input with the provider enabled and no credential. -/
def keylessInput : LlmAvailabilityInput :=
  { provider := LlmProvider.anthropic
    apiKey := none
    maxRetries := none
    baseBackoffMs := none
    maxBackoffMs := none
    rateLimitDefaultMs := none }

/-- An input with maxRetries 1. -/
def oneRetryInput : LlmAvailabilityInput :=
  { provider := LlmProvider.anthropic
    apiKey := some "k"
    maxRetries := some 1
    baseBackoffMs := some 100
    maxBackoffMs := some 300
    rateLimitDefaultMs := some 100 }

/-- Event list delivering n consecutive service-down probe failures: the
first failure, then for each later failure the elapse of the pending backoff
timer followed by the failing probe result. -/
def failTrace : Nat → List LlmAvailabilityEvent
  | 0 => []
  | 1 => [LlmAvailabilityEvent.PROBE_ERROR downError]
  | n + 2 =>
      failTrace (n + 1) ++
        [LlmAvailabilityEvent.TIMER_ELAPSE,
         LlmAvailabilityEvent.PROBE_ERROR downError]

/-- The currentBackoffMs values observed right after each of the first k
consecutive service-down failures, starting from a freshly created machine. -/
def observedBackoffs (input : LlmAvailabilityInput) (k : Nat) : List Nat :=
  (List.range k).map
    (fun j => (run (initialConfiguration input) (failTrace (j + 1))).2.currentBackoffMs)

/-- Test singling out the events that are not a CONFIGURE command. -/
def notConfigure : LlmAvailabilityEvent → Bool
  | LlmAvailabilityEvent.CONFIGURE _ _ => false
  | _ => true

/-- Inductive invariant for the retry-count cap: the machine is resting in a
real state, the cap is positive, the count never exceeds the cap, and in the
states from which a probe can still fail without an intervening reset the
count is strictly below the cap. -/
def RetryCapInv (s : LlmAvailabilityState) (c : LlmAvailabilityContext) : Prop :=
  s ≠ LlmAvailabilityState.initializing ∧
  1 ≤ c.maxRetries ∧
  c.retryCount ≤ c.maxRetries ∧
  ((s = LlmAvailabilityState.checking ∨ s = LlmAvailabilityState.available ∨
      s = LlmAvailabilityState.invalidKey ∨ s = LlmAvailabilityState.rateLimited) →
    c.retryCount < c.maxRetries)

end Tender

/-! ## Theorems -/

namespace Tender

/-- Claim C3: for every HTTP status and every value of the retry-hint flag,
classification returns invalid-credential exactly when the status is 401 or
403, regardless of the hint; otherwise rate-limited exactly when a
retry-delay hint is present; otherwise service-down.  In particular
classify(401, true) = classify(401, false) = invalid-credential,
classify(503, true) = rate-limited and classify(503, false) = service-down. -/
theorem classifyResponse_spec (status : Int) (hasRetryAfter : Bool) :
    (classifyResponse status hasRetryAfter = AvailabilityErrorCode.invalidKey ↔
      status = 401 ∨ status = 403) ∧
    (classifyResponse status hasRetryAfter = AvailabilityErrorCode.rateLimited ↔
      ¬(status = 401 ∨ status = 403) ∧ hasRetryAfter = true) ∧
    (classifyResponse status hasRetryAfter = AvailabilityErrorCode.serviceDown ↔
      ¬(status = 401 ∨ status = 403) ∧ hasRetryAfter = false) ∧
    classifyResponse 401 true = AvailabilityErrorCode.invalidKey ∧
    classifyResponse 401 false = AvailabilityErrorCode.invalidKey ∧
    classifyResponse 503 true = AvailabilityErrorCode.rateLimited ∧
    classifyResponse 503 false = AvailabilityErrorCode.serviceDown := by
  refine ⟨?_, ?_, ?_, by decide, by decide, by decide, by decide⟩ <;>
    by_cases h : status = 401 ∨ status = 403 <;>
      cases hasRetryAfter <;> simp [classifyResponse, h]

/-- Claim C4: retry-hint parsing maps a non-negative integer string to that
many whole seconds in milliseconds; the string 0 yields 0 ms; the negative
integer string -5 falls through to the date branch and, that branch failing,
is absent; and an HTTP-date whose computed delay relative to now is not
positive is absent. -/
theorem parseRetryAfter_rules (dateParse : String → Option Int) (now : Int) :
    parseRetryAfter dateParse now (some "0") = some 0 ∧
    (dateParse "-5" = none → parseRetryAfter dateParse now (some "-5") = none) ∧
    (∀ v k, jsParseInt v = some k → 0 ≤ k →
      parseRetryAfter dateParse now (some v) = some (k * 1000)) ∧
    (∀ v d, jsParseInt v = none → dateParse v = some d → d - now ≤ 0 →
      parseRetryAfter dateParse now (some v) = none) := by
  refine ⟨rfl, ?_, ?_, ?_⟩
  · intro hdp
    have key : parseRetryAfter dateParse now (some "-5") =
        parseRetryAfterDate dateParse now "-5" := rfl
    rw [key]
    simp [parseRetryAfterDate, hdp]
  · intro v k hv hk
    by_cases hve : v = ""
    · subst hve
      rw [show jsParseInt "" = (none : Option Int) from by decide] at hv
      cases hv
    · simp only [parseRetryAfter, hv, if_neg hve]
      rw [if_pos hk]
  · intro v d hv hd hle
    by_cases hve : v = ""
    · subst hve; rfl
    · simp only [parseRetryAfter, hv, if_neg hve, parseRetryAfterDate, hd]
      rw [if_neg (by omega)]

/-- Witness for C4 at concrete inputs: the date parser rejecting everything,
now = 0, and the strings 0, -5, 60, and a past date. -/
theorem parseRetryAfter_rules_witness :
    parseRetryAfter (fun _ : String => (none : Option Int)) 0 (some "0") = some 0 ∧
    parseRetryAfter (fun _ : String => (none : Option Int)) 0 (some "-5") = none ∧
    parseRetryAfter (fun _ : String => (none : Option Int)) 0 (some "60") = some 60000 ∧
    parseRetryAfter (fun _ : String => some (-100 : Int)) 0 (some "past-date") = none := by
  refine ⟨(parseRetryAfter_rules _ 0).1,
    (parseRetryAfter_rules _ 0).2.1 rfl,
    ?_,
    (parseRetryAfter_rules _ 0).2.2.2 "past-date" (-100) (by decide) rfl (by decide)⟩
  have h := (parseRetryAfter_rules (fun _ : String => (none : Option Int)) 0).2.2.1
    "60" 60 (by decide) (by decide)
  simpa using h

/-- Claim C5 counterexample: the string 12abc has the non-negative integer
prefix 12, so parseRetryAfter returns 12000 ms rather than treating the hint
as absent. -/
theorem parseRetryAfter_numeric_prefix_cex :
    parseRetryAfter (fun _ : String => (none : Option Int)) 0 (some "12abc") = some 12000 ∧
    parseRetryAfter (fun _ : String => (none : Option Int)) 0 (some "12abc") ≠ none := by
  decide

/-- Claim C5 (amended): a retry-hint string from which parseInt extracts no
integer at all (no digit after the optional sign) and which the date parser
rejects is treated as absent; a string with a non-negative integer prefix
followed by garbage, such as 12abc, is instead read as that many seconds. -/
theorem parseRetryAfter_invalid_absent (dateParse : String → Option Int)
    (now : Int) (v : String) (hint : jsParseInt v = none)
    (hdate : dateParse v = none) :
    parseRetryAfter dateParse now (some v) = none := by
  by_cases hve : v = ""
  · subst hve; rfl
  · simp only [parseRetryAfter, hint, if_neg hve, parseRetryAfterDate, hdate]

/-- Witness for C5 at the concrete string not-a-number. -/
theorem parseRetryAfter_invalid_absent_witness :
    parseRetryAfter (fun _ : String => (none : Option Int)) 0 (some "not-a-number") = none :=
  parseRetryAfter_invalid_absent _ 0 "not-a-number" (by decide) rfl

/-- Claim C1 counterexample: from a freshly created machine, one
service-down failure followed by a CONFIGURE command leaves retryCount at 1
and the diagnostic fields set: the retry context is not discarded. -/
theorem configure_discards_retry_context_cex :
    (run (initialConfiguration testInput)
      [LlmAvailabilityEvent.PROBE_ERROR downError,
       LlmAvailabilityEvent.CONFIGURE LlmProvider.anthropic (some "test-key")]).2.retryCount
      = 1 ∧
    (run (initialConfiguration testInput)
      [LlmAvailabilityEvent.PROBE_ERROR downError,
       LlmAvailabilityEvent.CONFIGURE LlmProvider.anthropic (some "test-key")]).2.retryCount
      ≠ 0 ∧
    (run (initialConfiguration testInput)
      [LlmAvailabilityEvent.PROBE_ERROR downError,
       LlmAvailabilityEvent.CONFIGURE LlmProvider.anthropic (some "test-key")]).2.lastErrorMessage
      = some "Internal server error" := by
  decide

/-- Claim C1 (amended): in every resting state that handles it (that is,
every state except transient initializing and except checking, where the
command is dropped), a CONFIGURE command replaces provider and apiKey with
the values carried by the event and re-routes through initializing, but
preserves the whole retry context: retryCount, currentBackoffMs,
retryAfterMs, lastErrorMessage and lastErrorCode are unchanged rather than
reset. -/
theorem configure_preserves_retry_context
    (s : LlmAvailabilityState) (c : LlmAvailabilityContext)
    (p : LlmProvider) (k : Option String)
    (hi : s ≠ LlmAvailabilityState.initializing)
    (hc : s ≠ LlmAvailabilityState.checking) :
    (step s c (LlmAvailabilityEvent.CONFIGURE p k)).2.provider = p ∧
    (step s c (LlmAvailabilityEvent.CONFIGURE p k)).2.apiKey = k ∧
    (step s c (LlmAvailabilityEvent.CONFIGURE p k)).2.retryCount = c.retryCount ∧
    (step s c (LlmAvailabilityEvent.CONFIGURE p k)).2.currentBackoffMs = c.currentBackoffMs ∧
    (step s c (LlmAvailabilityEvent.CONFIGURE p k)).2.retryAfterMs = c.retryAfterMs ∧
    (step s c (LlmAvailabilityEvent.CONFIGURE p k)).2.lastErrorMessage = c.lastErrorMessage ∧
    (step s c (LlmAvailabilityEvent.CONFIGURE p k)).2.lastErrorCode = c.lastErrorCode ∧
    (step s c (LlmAvailabilityEvent.CONFIGURE p k)).1 =
      initRoute (step s c (LlmAvailabilityEvent.CONFIGURE p k)).2 := by
  cases s <;> first
    | exact absurd rfl hi
    | exact absurd rfl hc
    | exact ⟨rfl, rfl, rfl, rfl, rfl, rfl, rfl, rfl⟩

/-- Witness for C1 at the serviceDown state reached after one failure. -/
theorem configure_preserves_retry_context_witness :
    (step LlmAvailabilityState.serviceDown
      (run (initialConfiguration testInput) [LlmAvailabilityEvent.PROBE_ERROR downError]).2
      (LlmAvailabilityEvent.CONFIGURE LlmProvider.anthropic none)).2.retryCount =
    (run (initialConfiguration testInput) [LlmAvailabilityEvent.PROBE_ERROR downError]).2.retryCount :=
  (configure_preserves_retry_context LlmAvailabilityState.serviceDown _
    LlmProvider.anthropic none (by decide) (by decide)).2.2.1

/-- Claim C2 counterexample: a CONFIGURE command with provider none received
while the machine is checking is dropped: the machine stays in checking with
the old provider instead of yielding disabled. -/
theorem configure_in_checking_ignored_cex :
    (run (initialConfiguration testInput)
      [LlmAvailabilityEvent.CONFIGURE LlmProvider.none none]).1 =
      LlmAvailabilityState.checking ∧
    (run (initialConfiguration testInput)
      [LlmAvailabilityEvent.CONFIGURE LlmProvider.none none]).1 ≠
      LlmAvailabilityState.disabled ∧
    (run (initialConfiguration testInput)
      [LlmAvailabilityEvent.CONFIGURE LlmProvider.none none]).2.provider =
      LlmProvider.anthropic := by
  decide

/-- Claim C2 (amended): in every resting state other than checking, a
CONFIGURE command is accepted and immediately restarts evaluation from
initializing with the new configuration, and with provider none it yields
the disabled state; a CONFIGURE received in checking, while the probe is in
flight, is ignored: the machine keeps its state and context. -/
theorem configure_accepted_outside_checking
    (s : LlmAvailabilityState) (c : LlmAvailabilityContext)
    (p : LlmProvider) (k : Option String)
    (hi : s ≠ LlmAvailabilityState.initializing) :
    (s ≠ LlmAvailabilityState.checking →
      step s c (LlmAvailabilityEvent.CONFIGURE p k) = handleConfigure p k c ∧
      (p = LlmProvider.none →
        (step s c (LlmAvailabilityEvent.CONFIGURE p k)).1 =
          LlmAvailabilityState.disabled)) ∧
    (s = LlmAvailabilityState.checking →
      step s c (LlmAvailabilityEvent.CONFIGURE p k) = (s, c)) := by
  cases s with
  | initializing => exact absurd rfl hi
  | checking => exact ⟨fun hc => absurd rfl hc, fun _ => rfl⟩
  | disabled =>
      exact ⟨fun _ => ⟨rfl, fun hp => by subst hp; rfl⟩, fun h => by cases h⟩
  | available =>
      exact ⟨fun _ => ⟨rfl, fun hp => by subst hp; rfl⟩, fun h => by cases h⟩
  | keyMissing =>
      exact ⟨fun _ => ⟨rfl, fun hp => by subst hp; rfl⟩, fun h => by cases h⟩
  | invalidKey =>
      exact ⟨fun _ => ⟨rfl, fun hp => by subst hp; rfl⟩, fun h => by cases h⟩
  | rateLimited =>
      exact ⟨fun _ => ⟨rfl, fun hp => by subst hp; rfl⟩, fun h => by cases h⟩
  | serviceDown =>
      exact ⟨fun _ => ⟨rfl, fun hp => by subst hp; rfl⟩, fun h => by cases h⟩

/-- Witness for C2: a CONFIGURE with provider none from rateLimited yields
disabled. -/
theorem configure_accepted_outside_checking_witness :
    (step LlmAvailabilityState.rateLimited (createInitialContext testInput)
      (LlmAvailabilityEvent.CONFIGURE LlmProvider.none none)).1 =
      LlmAvailabilityState.disabled :=
  ((configure_accepted_outside_checking LlmAvailabilityState.rateLimited
    (createInitialContext testInput) LlmProvider.none none (by decide)).1
    (by decide)).2 rfl

/-- Claim C8: a manual CHECK processed in serviceDown resets retryCount to 0
and currentBackoffMs to baseBackoffMs (running resetRetryState) and moves
the machine to checking, where the next probe starts. -/
theorem serviceDown_manual_check_resets (c : LlmAvailabilityContext) :
    (step LlmAvailabilityState.serviceDown c LlmAvailabilityEvent.CHECK).1 =
      LlmAvailabilityState.checking ∧
    (step LlmAvailabilityState.serviceDown c LlmAvailabilityEvent.CHECK).2.retryCount = 0 ∧
    (step LlmAvailabilityState.serviceDown c LlmAvailabilityEvent.CHECK).2.currentBackoffMs =
      c.baseBackoffMs ∧
    (step LlmAvailabilityState.serviceDown c LlmAvailabilityEvent.CHECK).2 =
      resetRetryState c :=
  ⟨rfl, rfl, rfl, rfl⟩

/-- Claim C9: initial routing from initializing checks the disabled provider
first, then the missing credential, then enters checking; a machine created
with the provider enabled and no credential settles in keyMissing, a state
that never invokes the Prober. -/
theorem initial_routing (c : LlmAvailabilityContext) (i : LlmAvailabilityInput) :
    (isDisabled c = true → initRoute c = LlmAvailabilityState.disabled) ∧
    (isDisabled c = false → hasNoKey c = true →
      initRoute c = LlmAvailabilityState.keyMissing) ∧
    (isDisabled c = false → hasNoKey c = false →
      initRoute c = LlmAvailabilityState.checking) ∧
    (i.provider = LlmProvider.anthropic → i.apiKey = none →
      (initialConfiguration i).1 = LlmAvailabilityState.keyMissing ∧
      invokesProbe (initialConfiguration i).1 = false) := by
  refine ⟨?_, ?_, ?_, ?_⟩
  · intro h; simp [initRoute, h]
  · intro h1 h2; simp [initRoute, h1, h2]
  · intro h1 h2; simp [initRoute, h1, h2]
  · intro hp hk
    have hroute : initRoute (createInitialContext i) = LlmAvailabilityState.keyMissing := by
      simp [initRoute, isDisabled, hasNoKey, createInitialContext, hp, hk]
    exact ⟨by simp [initialConfiguration, hroute],
      by simp [initialConfiguration, hroute, invokesProbe]⟩

/-- Witness for C9 at the keyless input. -/
theorem initial_routing_witness :
    (initialConfiguration keylessInput).1 = LlmAvailabilityState.keyMissing ∧
    invokesProbe (initialConfiguration keylessInput).1 = false :=
  (initial_routing (createInitialContext keylessInput) keylessInput).2.2.2 rfl rfl

/-- Claim C7: once the retry budget is exhausted, serviceDown absorbs every
elapse of the backoff timer: the guard canRetry fails, so no transition is
taken and no action runs, and the machine stays in serviceDown with its
context untouched until a CHECK or CONFIGURE command arrives. -/
theorem serviceDown_exhausted_no_auto_retry (c : LlmAvailabilityContext)
    (h : c.maxRetries ≤ c.retryCount) (es : List LlmAvailabilityEvent)
    (hes : ∀ e ∈ es, e = LlmAvailabilityEvent.TIMER_ELAPSE) :
    run (LlmAvailabilityState.serviceDown, c) es =
      (LlmAvailabilityState.serviceDown, c) := by
  induction es with
  | nil => rfl
  | cons e es ih =>
      have he := hes e (List.mem_cons_self e es)
      subst he
      have hguard : canRetry c = false := by
        simp only [canRetry, decide_eq_false_iff_not, not_lt]
        exact h
      have hstep : step LlmAvailabilityState.serviceDown c
          LlmAvailabilityEvent.TIMER_ELAPSE =
          (LlmAvailabilityState.serviceDown, c) := by
        simp [step, hguard]
      have hrun : run (LlmAvailabilityState.serviceDown, c)
          (LlmAvailabilityEvent.TIMER_ELAPSE :: es) =
          run (step LlmAvailabilityState.serviceDown c
            LlmAvailabilityEvent.TIMER_ELAPSE) es := rfl
      rw [hrun, hstep]
      exact ih (fun e hmem => hes e (List.mem_cons_of_mem _ hmem))

/-- Witness for C7: the exhausted machine built from oneRetryInput ignores
two elapses of the backoff timer. -/
theorem serviceDown_exhausted_no_auto_retry_witness :
    run (LlmAvailabilityState.serviceDown,
        (run (initialConfiguration oneRetryInput)
          [LlmAvailabilityEvent.PROBE_ERROR downError]).2)
      [LlmAvailabilityEvent.TIMER_ELAPSE, LlmAvailabilityEvent.TIMER_ELAPSE] =
    (LlmAvailabilityState.serviceDown,
      (run (initialConfiguration oneRetryInput)
        [LlmAvailabilityEvent.PROBE_ERROR downError]).2) :=
  serviceDown_exhausted_no_auto_retry _ (by decide) _ (by decide)

/-- Doubling a capped value and capping again is the same as capping the
doubled uncapped value. -/
theorem min_double_cap (a m : Nat) : min (min a m * 2) m = min (a * 2) m := by
  omega

/-- After n consecutive service-down failures delivered by failTrace,
starting in checking from a reset retry context whose base backoff does not
exceed the cap, the machine is in serviceDown with retryCount n and
currentBackoffMs equal to min (base * 2 ^ (n - 1)) max. -/
theorem run_failTrace (c0 : LlmAvailabilityContext)
    (hbm : c0.baseBackoffMs ≤ c0.maxBackoffMs)
    (hcb : c0.currentBackoffMs = c0.baseBackoffMs)
    (hrc : c0.retryCount = 0) :
    ∀ m, m + 1 ≤ c0.maxRetries →
      run (LlmAvailabilityState.checking, c0) (failTrace (m + 1)) =
        (LlmAvailabilityState.serviceDown,
          { c0 with
            retryCount := m + 1
            currentBackoffMs := min (c0.baseBackoffMs * 2 ^ m) c0.maxBackoffMs
            lastErrorMessage := some downError.message
            lastErrorCode := downError.statusCode }) := by
  intro m
  induction m with
  | zero =>
      intro _
      have hbase : run (LlmAvailabilityState.checking, c0) (failTrace 1) =
          (LlmAvailabilityState.serviceDown,
            incrementRetry (setError downError c0)) := rfl
      rw [hbase]
      simp only [incrementRetry, setError, downError, pow_zero, Nat.mul_one]
      rw [hrc, Nat.min_eq_left hbm, ← hcb]
  | succ m ih =>
      intro hm
      have hsplit : failTrace (m + 2) =
          failTrace (m + 1) ++
            [LlmAvailabilityEvent.TIMER_ELAPSE,
             LlmAvailabilityEvent.PROBE_ERROR downError] := rfl
      have happ : run (LlmAvailabilityState.checking, c0) (failTrace (m + 2)) =
          run (run (LlmAvailabilityState.checking, c0) (failTrace (m + 1)))
            [LlmAvailabilityEvent.TIMER_ELAPSE,
             LlmAvailabilityEvent.PROBE_ERROR downError] := by
        rw [hsplit]; exact List.foldl_append ..
      rw [happ, ih (by omega)]
      have hguard : canRetry
          { c0 with
            retryCount := m + 1
            currentBackoffMs := min (c0.baseBackoffMs * 2 ^ m) c0.maxBackoffMs
            lastErrorMessage := some downError.message
            lastErrorCode := downError.statusCode } = true := by
        simp only [canRetry, decide_eq_true_eq]
        omega
      simp only [run, List.foldl_cons, List.foldl_nil, step, hguard, if_true]
      simp only [calculateBackoff, incrementRetry, setError, isInvalidKeyError,
        isRateLimitError, isAvailabilityError, downError, Bool.true_and,
        decide_eq_true_eq]
      rw [if_neg (by simp), if_neg (by simp)]
      simp only [min_double_cap, mul_assoc, ← pow_succ]

/-- Claim C6 (amended with the hypothesis that baseBackoffMs does not exceed
maxBackoffMs, without which the first scheduled delay is baseBackoffMs
rather than the capped value): for n consecutive service-down failures
reachable within the retry budget, starting from a reset retry context, the
n-th scheduled backoff delay is min (baseBackoffMs * 2 ^ (n - 1))
maxBackoffMs; concretely, with baseBackoffMs 100 and maxBackoffMs 300 the
currentBackoffMs values observed at the first four failures are 100, 200,
300, 300. -/
theorem backoff_nth_delay (c0 : LlmAvailabilityContext) (n : Nat)
    (h1 : 1 ≤ n) (hn : n ≤ c0.maxRetries) (hrc : c0.retryCount = 0)
    (hcb : c0.currentBackoffMs = c0.baseBackoffMs)
    (hbm : c0.baseBackoffMs ≤ c0.maxBackoffMs) :
    (run (LlmAvailabilityState.checking, c0) (failTrace n)).1 =
      LlmAvailabilityState.serviceDown ∧
    BACKOFF_DELAY (run (LlmAvailabilityState.checking, c0) (failTrace n)).2 =
      min (c0.baseBackoffMs * 2 ^ (n - 1)) c0.maxBackoffMs ∧
    observedBackoffs capInput 4 = [100, 200, 300, 300] := by
  obtain ⟨m, rfl⟩ : ∃ m, n = m + 1 := ⟨n - 1, by omega⟩
  rw [run_failTrace c0 hbm hcb hrc m hn]
  exact ⟨rfl, rfl, by decide⟩

/-- Witness for C6 at the test input and the second failure. -/
theorem backoff_nth_delay_witness :
    (run (LlmAvailabilityState.checking, createInitialContext testInput)
      (failTrace 2)).1 = LlmAvailabilityState.serviceDown ∧
    BACKOFF_DELAY (run (LlmAvailabilityState.checking, createInitialContext testInput)
      (failTrace 2)).2 =
      min ((createInitialContext testInput).baseBackoffMs * 2 ^ (2 - 1))
        (createInitialContext testInput).maxBackoffMs :=
  ⟨(backoff_nth_delay (createInitialContext testInput) 2 (by decide) (by decide)
      (by decide) (by decide) (by decide)).1,
   (backoff_nth_delay (createInitialContext testInput) 2 (by decide) (by decide)
      (by decide) (by decide) (by decide)).2.1⟩

/-- Claim C6 counterexample: with baseBackoffMs 2000 above maxBackoffMs
1000, the first scheduled backoff delay is 2000, not the 1000 that the
min (base * 2 ^ 0) max formula gives. -/
theorem backoff_formula_cex :
    BACKOFF_DELAY (run (initialConfiguration bigBaseInput) (failTrace 1)).2 = 2000 ∧
    min ((createInitialContext bigBaseInput).baseBackoffMs * 2 ^ (1 - 1))
      (createInitialContext bigBaseInput).maxBackoffMs = 1000 ∧
    (2000 : Nat) ≠ 1000 := by
  decide

/-- One step of the machine preserves the retry-cap invariant, for every
event that is not a CONFIGURE command. -/
theorem retryCapInv_step (s : LlmAvailabilityState) (c : LlmAvailabilityContext)
    (e : LlmAvailabilityEvent) (he : notConfigure e = true)
    (h : RetryCapInv s c) :
    RetryCapInv (step s c e).1 (step s c e).2 := by
  obtain ⟨hinit, hmax, hle, hlt⟩ := h
  cases s with
  | initializing => exact absurd rfl hinit
  | checking =>
      cases e with
      | CONFIGURE p k => simp [notConfigure] at he
      | PROBE_DONE =>
          refine ⟨by simp [step], hmax, ?_, fun _ => ?_⟩
          · simp [step, resetRetryState]
          · simp only [step, resetRetryState]
            omega
      | PROBE_ERROR err =>
          have hcount := hlt (Or.inl rfl)
          simp only [step]
          split_ifs with h1 h2
          · exact ⟨by simp [step], hmax, by simpa [setError] using hle,
              fun _ => by simpa [setError] using hcount⟩
          · exact ⟨by simp [step], hmax, by simpa [setRateLimitError] using hle,
              fun _ => by simpa [setRateLimitError] using hcount⟩
          · refine ⟨by simp [step], hmax, ?_, ?_⟩
            · simp only [incrementRetry, setError]
              omega
            · intro hmem
              rcases hmem with hx | hx | hx | hx <;> cases hx
      | CHECK => exact ⟨hinit, hmax, hle, hlt⟩
      | TIMER_ELAPSE => exact ⟨hinit, hmax, hle, hlt⟩
  | disabled =>
      cases e with
      | CONFIGURE p k => simp [notConfigure] at he
      | CHECK => exact ⟨hinit, hmax, hle, hlt⟩
      | PROBE_DONE => exact ⟨hinit, hmax, hle, hlt⟩
      | PROBE_ERROR err => exact ⟨hinit, hmax, hle, hlt⟩
      | TIMER_ELAPSE => exact ⟨hinit, hmax, hle, hlt⟩
  | keyMissing =>
      cases e with
      | CONFIGURE p k => simp [notConfigure] at he
      | CHECK => exact ⟨hinit, hmax, hle, hlt⟩
      | PROBE_DONE => exact ⟨hinit, hmax, hle, hlt⟩
      | PROBE_ERROR err => exact ⟨hinit, hmax, hle, hlt⟩
      | TIMER_ELAPSE => exact ⟨hinit, hmax, hle, hlt⟩
  | available =>
      cases e with
      | CONFIGURE p k => simp [notConfigure] at he
      | CHECK =>
          exact ⟨by simp [step], hmax, hle,
            fun _ => hlt (Or.inr (Or.inl rfl))⟩
      | PROBE_DONE => exact ⟨hinit, hmax, hle, hlt⟩
      | PROBE_ERROR err => exact ⟨hinit, hmax, hle, hlt⟩
      | TIMER_ELAPSE => exact ⟨hinit, hmax, hle, hlt⟩
  | invalidKey =>
      cases e with
      | CONFIGURE p k => simp [notConfigure] at he
      | CHECK =>
          exact ⟨by simp [step], hmax, hle,
            fun _ => hlt (Or.inr (Or.inr (Or.inl rfl)))⟩
      | PROBE_DONE => exact ⟨hinit, hmax, hle, hlt⟩
      | PROBE_ERROR err => exact ⟨hinit, hmax, hle, hlt⟩
      | TIMER_ELAPSE => exact ⟨hinit, hmax, hle, hlt⟩
  | rateLimited =>
      cases e with
      | CONFIGURE p k => simp [notConfigure] at he
      | CHECK =>
          exact ⟨by simp [step], hmax, hle,
            fun _ => hlt (Or.inr (Or.inr (Or.inr rfl)))⟩
      | PROBE_DONE => exact ⟨hinit, hmax, hle, hlt⟩
      | PROBE_ERROR err => exact ⟨hinit, hmax, hle, hlt⟩
      | TIMER_ELAPSE =>
          exact ⟨by simp [step], hmax, hle,
            fun _ => hlt (Or.inr (Or.inr (Or.inr rfl)))⟩
  | serviceDown =>
      cases e with
      | CONFIGURE p k => simp [notConfigure] at he
      | CHECK =>
          refine ⟨by simp [step], hmax, ?_, fun _ => ?_⟩
          · simp [step, resetRetryState]
          · simp only [step, resetRetryState]
            omega
      | PROBE_DONE => exact ⟨hinit, hmax, hle, hlt⟩
      | PROBE_ERROR err => exact ⟨hinit, hmax, hle, hlt⟩
      | TIMER_ELAPSE =>
          simp only [step]
          split_ifs with hg
          · have hcount : c.retryCount < c.maxRetries := by
              simpa [canRetry] using hg
            exact ⟨by simp [step], hmax, by simpa [calculateBackoff] using hle,
              fun _ => by simpa [calculateBackoff] using hcount⟩
          · exact ⟨hinit, hmax, hle, hlt⟩

/-- The retry-cap invariant holds along every run whose events contain no
CONFIGURE command. -/
theorem run_retryCapInv (cfg : LlmAvailabilityState × LlmAvailabilityContext)
    (h : RetryCapInv cfg.1 cfg.2) (es : List LlmAvailabilityEvent)
    (hes : ∀ e ∈ es, notConfigure e = true) :
    RetryCapInv (run cfg es).1 (run cfg es).2 := by
  induction es generalizing cfg with
  | nil => exact h
  | cons e es ih =>
      have h1 := retryCapInv_step cfg.1 cfg.2 e (hes e (List.mem_cons_self e es)) h
      have hrun : run cfg (e :: es) = run (step cfg.1 cfg.2 e) es := rfl
      rw [hrun]
      exact ih _ h1 (fun e hmem => hes e (List.mem_cons_of_mem _ hmem))

/-- Claim C10 counterexample: the invariant retryCount ≤ maxRetries fails on
reachable configurations: with maxRetries 0 a single service-down failure
yields retryCount 1, and with maxRetries 1 a failure followed by a CONFIGURE
command (which preserves retryCount) and a second failure yields
retryCount 2. -/
theorem retryCount_cap_cex :
    (run (initialConfiguration zeroRetryInput)
      [LlmAvailabilityEvent.PROBE_ERROR downError]).2.retryCount = 1 ∧
    (run (initialConfiguration zeroRetryInput)
      [LlmAvailabilityEvent.PROBE_ERROR downError]).2.maxRetries = 0 ∧
    ¬ ((run (initialConfiguration zeroRetryInput)
          [LlmAvailabilityEvent.PROBE_ERROR downError]).2.retryCount ≤
        (run (initialConfiguration zeroRetryInput)
          [LlmAvailabilityEvent.PROBE_ERROR downError]).2.maxRetries) ∧
    (run (initialConfiguration oneRetryInput)
      [LlmAvailabilityEvent.PROBE_ERROR downError,
       LlmAvailabilityEvent.CONFIGURE LlmProvider.anthropic (some "k"),
       LlmAvailabilityEvent.PROBE_ERROR downError]).2.retryCount = 2 ∧
    (run (initialConfiguration oneRetryInput)
      [LlmAvailabilityEvent.PROBE_ERROR downError,
       LlmAvailabilityEvent.CONFIGURE LlmProvider.anthropic (some "k"),
       LlmAvailabilityEvent.PROBE_ERROR downError]).2.maxRetries = 1 := by
  decide

/-- Claim C10 (amended by the counterexample: the cap must be positive, and
CONFIGURE commands, which preserve retryCount while re-entering checking,
must be excluded): in every configuration reachable from the initial state
via probe results, timer elapses and CHECK commands, when maxRetries is at
least 1, the context satisfies retryCount ≤ maxRetries. -/
theorem retryCount_le_maxRetries (i : LlmAvailabilityInput)
    (hmax : 1 ≤ (createInitialContext i).maxRetries)
    (es : List LlmAvailabilityEvent)
    (hes : ∀ e ∈ es, notConfigure e = true) :
    (run (initialConfiguration i) es).2.retryCount ≤
      (run (initialConfiguration i) es).2.maxRetries := by
  have hinv : RetryCapInv (initialConfiguration i).1 (initialConfiguration i).2 := by
    refine ⟨?_, hmax, by simp [initialConfiguration, createInitialContext], fun _ => ?_⟩
    · simp only [initialConfiguration, initRoute]
      split_ifs <;> decide
    · simpa [initialConfiguration, createInitialContext] using hmax
  exact (run_retryCapInv _ hinv es hes).2.2.1

/-- Witness for C10 at the test input with one failure and one elapse. -/
theorem retryCount_le_maxRetries_witness :
    (run (initialConfiguration testInput)
      [LlmAvailabilityEvent.PROBE_ERROR downError,
       LlmAvailabilityEvent.TIMER_ELAPSE]).2.retryCount ≤
    (run (initialConfiguration testInput)
      [LlmAvailabilityEvent.PROBE_ERROR downError,
       LlmAvailabilityEvent.TIMER_ELAPSE]).2.maxRetries :=
  retryCount_le_maxRetries testInput (by decide) _ (by decide)

end Tender
